import Mathlib

/-!
Verification development for the tool-output schema-to-type generation and
type-safe dispatch pipeline of the `pydantic-ai-chat-with-duckdb` frontend.

The embedding models JavaScript/TypeScript runtime values shallowly:
* `JValue` is the universe of JS values that flow through the pipeline
  (strings are modelled as `List Char`, i.e. sequences of code points;
  numbers as `Int`, which covers every value the claims exercise).
* Property access, truthiness, `Object.entries` ordering (array-index keys
  first, in ascending numeric order, then string keys in insertion order),
  and `Array.prototype.map` follow the JS semantics of the operations the
  source uses; operations that throw in JS are modelled in `Except`.
* JS objects are modelled as association lists; objects produced by
  `JSON.parse` (the only source of objects fed to the build-time generator)
  have pairwise distinct keys.
-/

/-- Shorthand: the character sequence of a Lean string literal, used to write
JS string values. -/
def str (s : String) : List Char := s.data

/-- A JavaScript runtime value, as consumed by the frontend pipeline. -/
inductive JValue where
  | vundef
  | vnull
  | vbool (b : Bool)
  | vnum (n : Int)
  | vstr (s : List Char)
  | varr (elems : List JValue)
  | vobj (fields : List (List Char × JValue))
deriving Inhabited

open JValue

/-- JS truthiness: `undefined`, `null`, `false`, `0`, and `""` are falsy;
every object and array is truthy. -/
def truthy : JValue → Bool
  | vundef => false
  | vnull => false
  | vbool b => b
  | vnum n => !(n == 0)
  | vstr s => !s.isEmpty
  | varr _ => true
  | vobj _ => true

/-- The JS `typeof` operator on the modelled values (`typeof null` is
`"object"`). -/
def jsTypeof : JValue → List Char
  | vundef => str "undefined"
  | vnull => str "object"
  | vbool _ => str "boolean"
  | vnum _ => str "number"
  | vstr _ => str "string"
  | varr _ => str "object"
  | vobj _ => str "object"

/-- Is this value the JS `null`? (`part === null` checks in the source). -/
def isNullV : JValue → Bool
  | vnull => true
  | _ => false

/-- Decimal digit test for JS object-key classification. -/
def isDigitChar (c : Char) : Bool := '0' ≤ c && c ≤ '9'

/-- Numeric value of a sequence of decimal digits. -/
def digitsToNat (s : List Char) : Nat :=
  s.foldl (fun a c => a * 10 + (c.toNat - 48)) 0

/-- Decimal digits of a natural number. -/
def natToStr (n : Nat) : List Char := Nat.toDigits 10 n

/-- JS string conversion of an integer. -/
def intToStr (i : Int) : List Char :=
  if i < 0 then '-' :: natToStr i.natAbs else natToStr i.natAbs

/-- JS `String(value)` on the modelled values (arrays stringify as their
comma-joined elements, plain objects as `[object Object]`). -/
def jsToString : JValue → List Char
  | vundef => str "undefined"
  | vnull => str "null"
  | vbool b => if b then str "true" else str "false"
  | vnum n => intToStr n
  | vstr s => s
  | varr xs => joinComma (xs.map elemToString)
  | vobj _ => str "[object Object]"
where
  /-- JS `Array.prototype.toString` renders `null`/`undefined` elements empty. -/
  elemToString : JValue → List Char
    | vundef => []
    | vnull => []
    | vbool b => if b then str "true" else str "false"
    | vnum n => intToStr n
    | vstr s => s
    | varr _ => []
    | vobj _ => str "[object Object]"
  joinComma : List (List Char) → List Char
    | [] => []
    | [x] => x
    | x :: xs => x ++ ',' :: joinComma xs

/-- Property read that never throws: returns `undefined` for a missing key
(the source only uses it after a null/undefined guard).  Arrays and strings
expose `length`; arrays expose their elements under decimal-digit keys. -/
def getProp : JValue → List Char → JValue
  | vobj fields, k => (List.lookup k fields).getD vundef
  | varr xs, k =>
      if k == str "length" then vnum xs.length
      else if !k.isEmpty && k.all isDigitChar then (xs.getD (digitsToNat k) vundef)
      else vundef
  | vstr s, k => if k == str "length" then vnum s.length else vundef
  | _, _ => vundef

/-- JS member access `base.key`: throws a `TypeError` when the base is
`null` or `undefined`, otherwise reads the property. -/
def jsGetE : JValue → List Char → Except (List Char) JValue
  | vundef, _ => .error (str "TypeError: cannot read properties of undefined")
  | vnull, _ => .error (str "TypeError: cannot read properties of null")
  | v, k => .ok (getProp v k)

/-- JS computed member access `base[key]` for an arbitrary key value (the key
is converted with `String(key)`). -/
def jsGetComputed (base : JValue) (key : JValue) : Except (List Char) JValue :=
  jsGetE base (jsToString key)

/-- JS strict equality against a string literal (`v === "..."`). -/
def strictEqStr (v : JValue) (s : List Char) : Bool :=
  match v with
  | vstr t => t == s
  | _ => false

/-- JS strict equality against a number literal (`v === n`). -/
def strictEqNum (v : JValue) (n : Int) : Bool :=
  match v with
  | vnum m => m == n
  | _ => false

/-- The `List Char` version of `startsWith` (JS `String.prototype.startsWith`). -/
def jsStartsWith (s pre : List Char) : Bool := List.isPrefixOf pre s

/-- JS `String.prototype.slice(n)` for the non-negative offsets the source
uses. -/
def jsSlice (n : Nat) (s : List Char) : List Char := List.drop n s

/-!
## `Object.entries` iteration order

JS object property iteration lists array-index keys (canonical decimal
strings below `2^32 - 1`) first, in ascending numeric order, and all other
string keys afterwards in insertion order.  `generate-types.js` iterates
`Object.entries(tools)` and `Object.entries(toolOutputTypes)`.
-/

/-- Is the key a canonical array-index string (`"0"`, `"17"`, ... below
`2^32 - 1`)?  Such keys are iterated first and numerically. -/
def isArrayIndexKey : List Char → Bool
  | [] => false
  | c :: cs =>
      (c :: cs).all isDigitChar && (c != '0' || cs.isEmpty) &&
        digitsToNat (c :: cs) < 4294967295

/-- Stable insertion into a list sorted by the numeric value of the key. -/
def insertIndexEntry (p : List Char × α) : List (List Char × α) → List (List Char × α)
  | [] => [p]
  | q :: qs =>
      if digitsToNat q.1 ≤ digitsToNat p.1 then q :: insertIndexEntry p qs
      else p :: q :: qs

/-- Stable sort of array-index entries by ascending numeric key. -/
def sortIndexEntries : List (List Char × α) → List (List Char × α)
  | [] => []
  | p :: ps => insertIndexEntry p (sortIndexEntries ps)

/-- The iteration order of `Object.entries` over an object's fields. -/
def jsEntries (fields : List (List Char × α)) : List (List Char × α) :=
  sortIndexEntries (fields.filter fun p => isArrayIndexKey p.1) ++
    fields.filter fun p => !isArrayIndexKey p.1

/-- JS `Object.entries(v)` on an arbitrary value: objects yield their fields in
JS iteration order, arrays and strings yield index-keyed entries, primitives
yield nothing.  (The generator only reaches this after `data.tools || {}`,
so the base is never `null`/`undefined`.) -/
def jsEntriesOf : JValue → List (List Char × JValue)
  | vobj fields => jsEntries fields
  | varr xs => indexed 0 xs
  | vstr s => indexed 0 (s.map fun c => vstr [c])
  | _ => []
where
  indexed (i : Nat) : List JValue → List (List Char × JValue)
    | [] => []
    | x :: xs => (natToStr i, x) :: indexed (i + 1) xs

/-!
## The type-generation run (`frontend/scripts/generate-types.js`)

The external library `json-schema-to-typescript` (`compile`) and the HTTP
fetch are collaborators of the script, modelled as parameters: a `Compiler`
maps a tool's output schema and the tool name to TypeScript source text (or
throws), and the fetch result is an `Except` of an `HttpResponse`.
-/

/-- The result of `fetch(...)`: the `ok` flag, `statusText`, and the result
of `response.json()` (which throws on a malformed body). -/
structure HttpResponse where
  ok : Bool
  statusText : List Char
  body : Except (List Char) JValue

/-- The external `compile(schema, name, opts)` of `json-schema-to-typescript`:
produces TypeScript source or throws (e.g. on an unsupported construct). -/
def Compiler : Type := JValue → List Char → Except (List Char) (List Char)

/-- A `\w` (word) character, as in the regex `/export interface (\w+)/`. -/
def isWordChar (c : Char) : Bool :=
  ('a' ≤ c && c ≤ 'z') || ('A' ≤ c && c ≤ 'Z') || isDigitChar c || c == '_'

/-- The capture of the first match of `tsCode.match(/export interface (\w+)/)`:
scan for the literal `export interface ` followed by at least one word
character and return the maximal word that follows it. -/
def findInterfaceName : List Char → Option (List Char)
  | [] => none
  | c :: cs =>
      let pre := str "export interface "
      if List.isPrefixOf pre (c :: cs) then
        let rest := List.drop pre.length (c :: cs)
        let w := rest.takeWhile isWordChar
        if w.isEmpty then findInterfaceName cs else some w
      else findInterfaceName cs

/-- The banner prepended to `typeDefinitions` before the per-tool loop. -/
def headerComment : List Char :=
  str "/**\n * Auto-generated types from backend tool schemas\n * Do not edit manually - run \"npm run generate:types\" to update\n */\n\n"

/-- The per-tool loop of `generateTypes`: for each `[toolName, toolConfig]`
entry, if `toolData.output` is truthy, compile it, append the TypeScript
code to `typeDefinitions`, and record `toolName ↦` the captured interface
name when the `export interface` regex matches.  Accessing `.output` on a
`null`/`undefined` config and a failing `compile` both throw out of the
loop. -/
def genLoop (compile : Compiler) :
    List (List Char × JValue) → List Char → List (List Char × List Char) →
    Except (List Char) (List Char × List (List Char × List Char))
  | [], defs, reg => .ok (defs, reg)
  | (toolName, toolConfig) :: rest, defs, reg => do
      let outputVal ← jsGetE toolConfig (str "output")
      if truthy outputVal then
        let tsCode ← compile outputVal toolName
        let defs' := defs ++ tsCode ++ str "\n"
        let reg' :=
          match findInterfaceName tsCode with
          | some iface => reg ++ [(toolName, iface)]
          | none => reg
        genLoop compile rest defs' reg'
      else
        genLoop compile rest defs reg

/-- Serialize the artifact: the accumulated type definitions followed by the
`ToolOutputTypes` mapping, whose lines iterate `Object.entries` of the
accumulated registry object. -/
def emitArtifact (defs : List Char) (reg : List (List Char × List Char)) :
    List Char :=
  defs ++
    str "\n// Tool output type mapping\n// Used in toolRenderers.tsx to ensure type safety\nexport type ToolOutputTypes = \x7b\n" ++
    (jsEntries reg).foldl
      (fun acc p => acc ++ str "  " ++ p.1 ++ str ": " ++ p.2 ++ str ";\n") [] ++
    str "\x7d;\n"

/-- The observable outcome of one generation run: the process exit code and
the sequence of writes to the output artifact file.  (`mkdirSync` only
touches the output directory, never the artifact, and is not observed.) -/
structure RunResult where
  exitCode : Nat
  writes : List (List Char)
deriving DecidableEq

/-- The `generateTypes()` run: fetch the schemas, bail out (exit 1, nothing written)
when the fetch rejects, the response is not `ok`, the body is not JSON, or
the per-tool loop throws; otherwise write the complete artifact once and
exit 0. -/
def generateTypes (compile : Compiler)
    (fetchResult : Except (List Char) HttpResponse) : RunResult :=
  match fetchResult with
  | .error _ => ⟨1, []⟩
  | .ok resp =>
    if !resp.ok then ⟨1, []⟩
    else
      match resp.body with
      | .error _ => ⟨1, []⟩
      | .ok data =>
        match jsGetE data (str "tools") with
        | .error _ => ⟨1, []⟩
        | .ok toolsVal =>
          let tools := if truthy toolsVal then toolsVal else vobj []
          match genLoop compile (jsEntriesOf tools) headerComment [] with
          | .error _ => ⟨1, []⟩
          | .ok (defs, reg) => ⟨0, [emitArtifact defs reg]⟩

/-- The `toolOutputTypes` registry produced by a generation run against a
given `tools` value (the object behind `data.tools || {}`). -/
def registryOf (compile : Compiler) (tools : JValue) :
    Except (List Char) (List (List Char × List Char)) :=
  (genLoop compile (jsEntriesOf tools) headerComment []).map Prod.snd

/-!
## The committed generated artifact (`frontend/src/types/tools.ts`)

The artifact checked into the repository declares `SQLQueryResult` and
`ChartResult` interfaces and the mapping
`export type ToolOutputTypes = { execute_sql: SQLQueryResult; render_chart: ChartResult; }`.
-/

/-- The keys of the `ToolOutputTypes` mapping in the committed
`src/types/tools.ts`. -/
def toolOutputTypesKeys : List (List Char) :=
  [str "execute_sql", str "render_chart"]

/-!
## The rendered output (React element trees)

A rendered node is either a text node or an element with a tag, an
attribute list (carrying `className`, `dataKey`, chart data, ...), and
children.  Rendering a plain object as a React child throws
(`Objects are not valid as a React child`); strings and numbers render as
text; `null`, `undefined`, and booleans render nothing.
-/

/-- A rendered React node. -/
inductive RNode where
  | rtext (s : List Char)
  | relem (tag : List Char) (attrs : List (List Char × JValue)) (children : List RNode)
  | rnone

/-- Shorthand for a `className` attribute. -/
def classAttr (c : String) : List (List Char × JValue) :=
  [(str "className", vstr (str c))]

/-- Render a JS value appearing as a JSX child `{value}`. -/
def renderChild : JValue → Except (List Char) (List RNode)
  | vstr s => .ok [RNode.rtext s]
  | vnum n => .ok [RNode.rtext (intToStr n)]
  | vbool _ => .ok []
  | vnull => .ok []
  | vundef => .ok []
  | varr xs => renderChildList xs
  | vobj _ => .error (str "Objects are not valid as a React child")
where
  renderChildList : List JValue → Except (List Char) (List RNode)
    | [] => .ok []
    | x :: xs => do
        let a ← renderChild x
        let b ← renderChildList xs
        .ok (a ++ b)

/-- Monadic indexed map used to model `arr.map((x, idx) => ...)` bodies. -/
def mapIdxE (f : JValue → Nat → Except (List Char) α) :
    List JValue → Nat → Except (List Char) (List α)
  | [], _ => .ok []
  | x :: xs, i => do
      let y ← f x i
      let ys ← mapIdxE f xs (i + 1)
      .ok (y :: ys)

/-- JS `base.map((x, idx) => ...)`: throws a `TypeError` unless the base is
an array. -/
def jsMapE (base : JValue) (f : JValue → Nat → Except (List Char) α) :
    Except (List Char) (List α) :=
  match base with
  | varr xs => mapIdxE f xs 0
  | vundef => .error (str "TypeError: cannot read properties of undefined")
  | vnull => .error (str "TypeError: cannot read properties of null")
  | _ => .error (str "TypeError: map is not a function")

/-- JS index access `arr[i]` for a non-negative literal index on a value
known not to be `null`/`undefined` (returns `undefined` out of range or on
non-arrays). -/
def jsIndex (base : JValue) (i : Nat) : JValue :=
  match base with
  | varr xs => xs.getD i vundef
  | _ => vundef

/-!
## `frontend/src/components/ToolResults/SQLQueryResult.tsx`
-/

/-- The `formatValue` helper: format one table cell (`—` for null/undefined, booleans
as words, numbers with `Intl.NumberFormat` digit grouping, `String(value)`
otherwise). -/
def formatValue (value : JValue) : List Char :=
  match value with
  | vnull => str "—"
  | vundef => str "—"
  | vbool b => if b then str "true" else str "false"
  | vnum n => formatNumberGrouped n
  | v => jsToString v
where
  /-- JS `new Intl.NumberFormat().format(n)`: decimal digits in groups of three
  separated by commas. -/
  formatNumberGrouped (n : Int) : List Char :=
    let ds := natToStr n.natAbs
    let grouped := (group3 ds.reverse).reverse
    if n < 0 then '-' :: grouped else grouped
  /-- Insert a comma after every third digit of a reversed digit string. -/
  group3 : List Char → List Char
    | a :: b :: c :: d :: rest => a :: b :: c :: ',' :: group3 (d :: rest)
    | l => l

/-- The `SQLQueryResult` component: an error panel when `success` is falsy,
otherwise the query, and a column/row table when `row_count !== 0`
(`data.column_names.map` and `data.rows.map` throw when those fields are not
arrays). -/
def SQLQueryResult (data : JValue) : Except (List Char) RNode := do
  let success ← jsGetE data (str "success")
  if !truthy success then
    let query ← jsGetE data (str "query")
    let error ← jsGetE data (str "error")
    let queryCh ← renderChild query
    let errCh ← renderChild error
    return .relem (str "div") (classAttr "tool-result sql-error")
      [.relem (str "div") (classAttr "tool-result-header")
        [.rtext (str "❌ SQL Query Error")],
       .relem (str "div") (classAttr "tool-result-content")
        [.relem (str "div") (classAttr "query-display")
          [.relem (str "code") [] queryCh],
         .relem (str "p") (classAttr "error-message") errCh]]
  else
    let rowCount ← jsGetE data (str "row_count")
    let id ← jsGetE data (str "id")
    let query ← jsGetE data (str "query")
    let rowCountCh ← renderChild rowCount
    let idCh ← renderChild id
    let queryCh ← renderChild query
    let header := .relem (str "div") (classAttr "tool-result-header")
      ([.rtext (str "📊 SQL Query Results (")] ++ rowCountCh ++
       [.rtext (str " row"),
        .rtext (if !strictEqNum rowCount 1 then str "s" else str ""),
        .rtext (str ")"),
        .relem (str "span") (classAttr "result-id") (.rtext (str "#") :: idCh)])
    let body ←
      if strictEqNum rowCount 0 then
        pure [RNode.relem (str "p") (classAttr "no-results")
          [.rtext (str "No results returned")]]
      else do
        let colNames ← jsGetE data (str "column_names")
        let rows ← jsGetE data (str "rows")
        let headCells ← jsMapE colNames fun col _ => do
          let colCh ← renderChild col
          pure (RNode.relem (str "th") [] colCh)
        let bodyRows ← jsMapE rows fun row _ => do
          let cells ← jsMapE colNames fun col _ => do
            let cellVal ← jsGetComputed row col
            pure (RNode.relem (str "td") [] [.rtext (formatValue cellVal)])
          pure (RNode.relem (str "tr") [] cells)
        pure [RNode.relem (str "div") (classAttr "table-container")
          [.relem (str "table") (classAttr "results-table")
            [.relem (str "thead") [] [.relem (str "tr") [] headCells],
             .relem (str "tbody") [] bodyRows]]]
    return .relem (str "div") (classAttr "tool-result sql-query")
      [header,
       .relem (str "div") (classAttr "tool-result-content")
        (.relem (str "div") (classAttr "query-display")
          [.relem (str "code") [] queryCh] :: body)]

/-!
## `frontend/src/components/ToolResults/ChartResult.tsx`

The recharts components are external collaborators; each is modelled as an
element node whose tag is the component name and whose attributes carry the
props the source passes (`data`, `dataKey`, colors, ...).
-/

/-- The color cycle used for chart series. -/
def chartColors : List (List Char) :=
  [str "#3b82f6", str "#ef4444", str "#10b981", str "#f59e0b",
   str "#8b5cf6", str "#ec4899", str "#06b6d4", str "#14b8a6"]

/-- The series color `COLORS[idx % COLORS.length]`. -/
def colorAt (idx : Nat) : List Char :=
  chartColors.getD (idx % chartColors.length) []

/-- Lowercasing of ASCII letters (`type.toLowerCase()`). -/
def asciiToLower (s : List Char) : List Char :=
  s.map fun c => if 'A' ≤ c && c ≤ 'Z' then Char.ofNat (c.toNat + 32) else c

/-- The shared `<CartesianGrid/><XAxis/><YAxis/><Tooltip/><Legend/>` prelude
of the cartesian chart cases. -/
def cartesianPrelude (xKey : JValue) : List RNode :=
  [.relem (str "CartesianGrid") [(str "strokeDasharray", vstr (str "3 3"))] [],
   .relem (str "XAxis") [(str "dataKey", xKey)] [],
   .relem (str "YAxis") [] [],
   .relem (str "Tooltip") [] [],
   .relem (str "Legend") [] []]

/-- JS `value.toLowerCase()`: lowercases a string, throws a `TypeError` on
every other value. -/
def toLowerCaseE : JValue → Except (List Char) (List Char)
  | vstr s => .ok (asciiToLower s)
  | vundef => .error (str "TypeError: cannot read properties of undefined")
  | vnull => .error (str "TypeError: cannot read properties of null")
  | _ => .error (str "TypeError: toLowerCase is not a function")

/-- The `renderChart` helper of `ChartResult.tsx`: a switch over the
lowercased chart type.  `type.toLowerCase()` throws unless the type is a
string; the `yKeys.map`/`data.map` bodies throw unless those values are
arrays. -/
def renderChart (typeV rows xKey yKeys : JValue) :
    Except (List Char) RNode := do
  let t ← toLowerCaseE typeV
  let commonAttrs := [(str "data", rows)]
  if t == str "line" then
    let series ← jsMapE yKeys fun key idx =>
      pure (RNode.relem (str "Line")
        [(str "dataKey", key), (str "stroke", vstr (colorAt idx))] [])
    return .relem (str "LineChart") commonAttrs (cartesianPrelude xKey ++ series)
  else if t == str "bar" then
    let series ← jsMapE yKeys fun key idx =>
      pure (RNode.relem (str "Bar")
        [(str "dataKey", key), (str "fill", vstr (colorAt idx))] [])
    return .relem (str "BarChart") commonAttrs (cartesianPrelude xKey ++ series)
  else if t == str "area" then
    let series ← jsMapE yKeys fun key idx =>
      pure (RNode.relem (str "Area")
        [(str "dataKey", key), (str "fill", vstr (colorAt idx)),
         (str "stroke", vstr (colorAt idx))] [])
    return .relem (str "AreaChart") commonAttrs (cartesianPrelude xKey ++ series)
  else if t == str "scatter" then
    let series ← jsMapE yKeys fun key idx =>
      pure (RNode.relem (str "Scatter")
        [(str "name", key), (str "dataKey", key),
         (str "fill", vstr (colorAt idx))] [])
    return .relem (str "ScatterChart") commonAttrs (cartesianPrelude xKey ++ series)
  else if t == str "composed" then
    let series ← jsMapE yKeys fun key idx =>
      if idx % 2 == 0 then
        pure (RNode.relem (str "Line")
          [(str "dataKey", key), (str "stroke", vstr (colorAt idx))] [])
      else
        pure (RNode.relem (str "Bar")
          [(str "dataKey", key), (str "fill", vstr (colorAt idx))] [])
    return .relem (str "ComposedChart") commonAttrs (cartesianPrelude xKey ++ series)
  else if t == str "pie" then
    let pieKey := jsIndex yKeys 0
    let cells ← jsMapE rows fun _ idx =>
      pure (RNode.relem (str "Cell") [(str "fill", vstr (colorAt idx))] [])
    return .relem (str "PieChart") []
      [.relem (str "Tooltip") [] [], .relem (str "Legend") [] [],
       .relem (str "Pie")
         [(str "data", rows), (str "dataKey", pieKey), (str "nameKey", xKey)]
         cells]
  else if t == str "radar" then
    return .relem (str "RadarChart") commonAttrs
      [.relem (str "PolarGrid") [] [],
       .relem (str "PolarAngleAxis") [(str "dataKey", xKey)] [],
       .relem (str "PolarRadiusAxis") [] [],
       .relem (str "Radar")
         [(str "name", jsIndex yKeys 0), (str "dataKey", jsIndex yKeys 0),
          (str "stroke", vstr (colorAt 0)), (str "fill", vstr (colorAt 0))] [],
       .relem (str "Tooltip") [] [],
       .relem (str "Legend") [] []]
  else if t == str "radial_bar" then
    return .relem (str "RadialBarChart") commonAttrs
      [.relem (str "PolarAngleAxis") [(str "dataKey", xKey)] [],
       .relem (str "PolarRadiusAxis") [] [],
       .relem (str "RadialBar")
         [(str "dataKey", jsIndex yKeys 0), (str "fill", vstr (colorAt 0))] [],
       .relem (str "Tooltip") [] [],
       .relem (str "Legend") [] []]
  else if t == str "funnel" then
    let cells ← jsMapE rows fun _ idx =>
      pure (RNode.relem (str "Cell") [(str "fill", vstr (colorAt idx))] [])
    return .relem (str "FunnelChart") commonAttrs
      [.relem (str "Tooltip") [] [], .relem (str "Legend") [] [],
       .relem (str "Funnel")
         [(str "dataKey", jsIndex yKeys 0), (str "data", rows)] cells]
  else if t == str "treemap" then
    return .relem (str "Treemap")
      [(str "data", rows), (str "dataKey", jsIndex yKeys 0),
       (str "fill", vstr (colorAt 0))]
      [.relem (str "Tooltip") [] []]
  else if t == str "sankey" then
    let len ← jsGetE rows (str "length")
    let nodes ← jsMapE rows fun item _ => do
      let nm ← jsGetComputed item xKey
      pure (vobj [(str "name", nm)])
    let links ← jsMapE rows fun item idx => do
      let value ← jsGetComputed item (jsIndex yKeys 0)
      let target :=
        match len with
        | vnum l => if l == 0 then vundef else vnum ((idx + 1) % l.toNat)
        | _ => vundef
      pure (vobj [(str "source", vnum idx), (str "target", target),
                  (str "value", value)])
    return .relem (str "Sankey")
      [(str "data", vobj [(str "nodes", varr nodes), (str "links", varr links)])]
      [.relem (str "Tooltip") [] []]
  else
    let tCh ← renderChild typeV
    return .relem (str "div") (classAttr "chart-error")
      (.rtext (str "Unsupported chart type: ") :: tCh)

/-- The `ChartResult` component: an error panel when `success` is falsy, an
empty panel when `rows` is falsy or has length 0, otherwise the chart built
by `renderChart`, with an optional explanation block. -/
def ChartResult (data : JValue) : Except (List Char) RNode := do
  let success ← jsGetE data (str "success")
  if !truthy success then
    let error ← jsGetE data (str "error")
    let errCh ← renderChild error
    return .relem (str "div") (classAttr "tool-result chart-error")
      [.relem (str "div") (classAttr "tool-result-header")
        [.rtext (str "❌ Chart Rendering Error")],
       .relem (str "div") (classAttr "tool-result-content")
        [.relem (str "p") (classAttr "error-message") errCh]]
  else
    let rows ← jsGetE data (str "rows")
    let config ← jsGetE data (str "config")
    if !truthy rows || strictEqNum (getProp rows (str "length")) 0 then
      return .relem (str "div") (classAttr "tool-result chart-empty")
        [.relem (str "div") (classAttr "tool-result-header")
          [.rtext (str "📊 Chart")],
         .relem (str "div") (classAttr "tool-result-content")
          [.relem (str "p") (classAttr "no-results")
            [.rtext (str "No data available to render chart")]]]
    else
      let title ← jsGetE config (str "title")
      let chartType ← jsGetE config (str "chart_type")
      let chartTitle :=
        if truthy title then title
        else vstr (jsToString chartType ++ str " Chart")
      let xKey ← jsGetE config (str "x_key")
      let yKeys ← jsGetE config (str "y_keys")
      let chart ← renderChart chartType rows xKey yKeys
      let explanation ← jsGetE data (str "explanation")
      let explBlock ←
        if truthy explanation then do
          let c ← renderChild explanation
          pure [RNode.relem (str "div") (classAttr "chart-explanation") c]
        else
          pure ([] : List RNode)
      let titleCh ← renderChild chartTitle
      return .relem (str "div") (classAttr "tool-result chart-result")
        [.relem (str "div") (classAttr "tool-result-header")
          (.rtext (str "📊 ") :: titleCh),
         .relem (str "div") (classAttr "tool-result-content chart-content")
          (.relem (str "ResponsiveContainer") [] [chart] :: explBlock)]

/-!
## `frontend/src/components/ToolResults/WeatherResult.tsx`
-/

/-- The `WeatherResult` component: city, condition, temperature, and unit. -/
def WeatherResult (data : JValue) : Except (List Char) RNode := do
  let city ← jsGetE data (str "city")
  let condition ← jsGetE data (str "condition")
  let temperature ← jsGetE data (str "temperature")
  let unit ← jsGetE data (str "unit")
  let cityCh ← renderChild city
  let condCh ← renderChild condition
  let tempCh ← renderChild temperature
  let unitCh ← renderChild unit
  return .relem (str "div") (classAttr "tool-result weather")
    [.relem (str "div") (classAttr "tool-result-header")
      (.rtext (str "🌤️ Weather for ") :: cityCh),
     .relem (str "div") (classAttr "tool-result-content")
      [.relem (str "p") []
        (.rtext (str "Condition: ") :: condCh),
       .relem (str "p") []
        ([.rtext (str "Temperature: ")] ++ tempCh ++ [.rtext (str "°")] ++ unitCh)]]

/-!
## `frontend/src/components/ToolResults/toolRenderers.tsx`
-/

/-- The keys of the `toolRenderers` dispatch map, in declaration order. -/
def toolRenderersKeys : List (List Char) :=
  [str "get_weather", str "execute_sql", str "render_chart"]

/-- The property names every plain object inherits from `Object.prototype`
(including the normative-optional accessors present in every browser and in
Node). -/
def objectProtoKeys : List (List Char) :=
  [str "constructor", str "hasOwnProperty", str "isPrototypeOf",
   str "propertyIsEnumerable", str "toLocaleString", str "toString",
   str "valueOf", str "__proto__", str "__defineGetter__",
   str "__defineSetter__", str "__lookupGetter__", str "__lookupSetter__"]

/-- The `hasToolRenderer` guard: `toolName in toolRenderers`.  The JS `in`
operator consults the whole prototype chain, so besides the three own keys
it also answers `true` for every `Object.prototype` property name (the
function's `toolName is keyof typeof toolRenderers` type predicate is an
unchecked cast and does not exclude them). -/
def hasToolRenderer (toolName : List Char) : Bool :=
  toolRenderersKeys.contains toolName || objectProtoKeys.contains toolName

/-- The `callToolRenderer` helper: `toolRenderers[toolName](output)` after
the coercing cast, for every name the `in` guard lets through.  The three
own keys reach the real renderers.  A prototype-inherited name invokes the
inherited member with `this = toolRenderers`: `toString`/`toLocaleString`
return the string `"[object Object]"` (a renderable child);
`valueOf` returns the plain `toolRenderers` object and `constructor`
(`Object(output)`) returns `output` itself — both objects, which React
rejects when the returned child renders; the boolean- and
undefined-returning members render nothing; `__defineGetter__` and
`__defineSetter__` throw for a non-callable argument, and `__proto__`
yields `Object.prototype`, which is not callable.  The final catch-all is
unreachable under the guard. -/
def callToolRenderer (toolName : List Char) (output : JValue) :
    Except (List Char) RNode :=
  if toolName == str "get_weather" then WeatherResult output
  else if toolName == str "execute_sql" then SQLQueryResult output
  else if toolName == str "render_chart" then ChartResult output
  else if toolName == str "toString" || toolName == str "toLocaleString" then
    .ok (RNode.rtext (str "[object Object]"))
  else if toolName == str "valueOf" || toolName == str "constructor" then
    .error (str "Objects are not valid as a React child")
  else if toolName == str "hasOwnProperty" || toolName == str "isPrototypeOf"
      || toolName == str "propertyIsEnumerable"
      || toolName == str "__lookupGetter__"
      || toolName == str "__lookupSetter__" then
    .ok RNode.rnone
  else if toolName == str "__defineGetter__" then
    .error (str "TypeError: Getter must be a function")
  else if toolName == str "__defineSetter__" then
    .error (str "TypeError: Setter must be a function")
  else if toolName == str "__proto__" then
    .error (str "TypeError: toolRenderers[toolName] is not a function")
  else .ok RNode.rnone

/-- The `ToolResultWrapper` component in its initial render (`showJSON = false`): the
toggle buttons plus the container showing the renderer's children. -/
def ToolResultWrapper (toolName : List Char) (toolOutput : JValue)
    (children : RNode) : RNode :=
  .relem (str "div")
    ((classAttr "tool-result-wrapper") ++
     [(str "toolName", vstr toolName), (str "toolOutput", toolOutput)])
    [.relem (str "div") (classAttr "tool-result-toggle")
      [.relem (str "button") (classAttr "toggle-btn active")
        [.rtext (str "UI View")],
       .relem (str "button") (classAttr "toggle-btn")
         [.rtext (str "JSON View")]],
     .relem (str "div") (classAttr "tool-result-container") [children]]

/-- The observable outcome of `renderToolPart`: its return value (or the
exception a renderer threw) together with the `console.warn` messages it
logged. -/
structure RenderOutcome where
  result : Except (List Char) (Option RNode)
  warnings : List (List Char)

/-- The `renderToolPart` extractor: reject non-objects and `null`; reject a `type` that is
not a string or does not start with `"tool-"`; strip the prefix; warn and
return `null` for an unregistered tool or a non-object `output`; otherwise
dispatch to the renderer and wrap the result. -/
def renderToolPart (part : JValue) : RenderOutcome :=
  if !(jsTypeof part == str "object") || isNullV part then
    ⟨.ok none, []⟩
  else
    let type := getProp part (str "type")
    let output := getProp part (str "output")
    match type with
    | vstr s =>
      if !jsStartsWith s (str "tool-") then ⟨.ok none, []⟩
      else
        let toolName := jsSlice 5 s
        if !hasToolRenderer toolName then
          ⟨.ok none, [str "No renderer found for tool: " ++ toolName]⟩
        else if !(jsTypeof output == str "object") || isNullV output then
          ⟨.ok none, [str "Invalid output for tool: " ++ toolName]⟩
        else
          match callToolRenderer toolName output with
          | .ok rendered =>
              ⟨.ok (some (ToolResultWrapper toolName output rendered)), []⟩
          | .error e => ⟨.error e, []⟩
    | _ => ⟨.ok none, []⟩

/-!
## `frontend/src/types/tool-utils.ts`
-/

/-- The `getToolOutput` helper: return `part.output` when `part` is a non-null object
whose `type` is strictly equal to `` `tool-${toolName}` `` and whose
`output` is truthy; `null` otherwise.  (No check that the output is an
object.) -/
def getToolOutput (part : JValue) (toolName : List Char) : Option JValue :=
  if (jsTypeof part == str "object") && !isNullV part &&
      strictEqStr (getProp part (str "type")) (str "tool-" ++ toolName) &&
      truthy (getProp part (str "output")) then
    some (getProp part (str "output"))
  else
    none

/-!
## Declared shapes of the generated types

`ProducerContractViolation` inputs are objects that are *shaped* as the
interfaces the committed `tools.ts` declares — every required field present
with its declared type, optional fields possibly absent (or `null` where
the declared type is `T | null`) — while possibly violating application
invariants.  A shape value erases to the `JValue` the renderer receives.
-/

/-- An optional field whose declared type is `string | null`. -/
def optStrOrNullField (k : String) : Option (Option (List Char)) →
    List (List Char × JValue)
  | none => []
  | some none => [(str k, vnull)]
  | some (some s) => [(str k, vstr s)]

/-- Shape of the generated `ChartConfig` interface. -/
structure ChartConfigShape where
  chart_type : List Char
  x_key : List Char
  y_keys : List (List Char)
  title : Option (Option (List Char))
  x_label : Option (Option (List Char))
  y_label : Option (Option (List Char))

/-- The object a `ChartConfigShape` denotes. -/
def ChartConfigShape.toJValue (c : ChartConfigShape) : JValue :=
  vobj ([(str "chart_type", vstr c.chart_type),
         (str "x_key", vstr c.x_key),
         (str "y_keys", varr (c.y_keys.map vstr))] ++
        optStrOrNullField "title" c.title ++
        optStrOrNullField "x_label" c.x_label ++
        optStrOrNullField "y_label" c.y_label)

/-- Shape of the generated `ChartResult` interface (rows are open records). -/
structure ChartShape where
  success : Bool
  chart_id : List Char
  chart_type : List Char
  rows : List (List (List Char × JValue))
  config : ChartConfigShape
  error : Option (Option (List Char))

/-- The object a `ChartShape` denotes. -/
def ChartShape.toJValue (s : ChartShape) : JValue :=
  vobj ([(str "success", vbool s.success),
         (str "chart_id", vstr s.chart_id),
         (str "chart_type", vstr s.chart_type),
         (str "rows", varr (s.rows.map vobj)),
         (str "config", s.config.toJValue)] ++
        optStrOrNullField "error" s.error)

/-- Shape of the generated `SQLQueryResult` interface. -/
structure SQLShape where
  id : List Char
  success : Bool
  query : List Char
  rows : List (List (List Char × JValue))
  row_count : Int
  error : Option (Option (List Char))
  column_names : Option (List (List Char))

/-- The object an `SQLShape` denotes. -/
def SQLShape.toJValue (s : SQLShape) : JValue :=
  vobj ([(str "id", vstr s.id),
         (str "success", vbool s.success),
         (str "query", vstr s.query),
         (str "rows", varr (s.rows.map vobj)),
         (str "row_count", vnum s.row_count)] ++
        optStrOrNullField "error" s.error ++
        (match s.column_names with
         | none => []
         | some cols => [(str "column_names", varr (cols.map vstr))]))

/-- Does an `Except`-modelled rendering call throw? -/
def throws : Except (List Char) RNode → Bool
  | .error _ => true
  | .ok _ => false

/-!
## Helper lemmas
-/

/-- Specification-side helper: is this value a string starting with
`"tool-"`? -/
def isToolTypeVal : JValue → Bool
  | vstr s => jsStartsWith s (str "tool-")
  | _ => false

lemma jsStartsWith_toolDash (name : List Char) :
    jsStartsWith (str "tool-" ++ name) (str "tool-") = true := by
  rw [jsStartsWith, List.isPrefixOf_iff_prefix]
  exact List.prefix_append _ _

lemma jsSlice_toolDash (name : List Char) :
    jsSlice 5 (str "tool-" ++ name) = name := by
  rw [jsSlice, show (5 : Nat) = (str "tool-").length from rfl, List.drop_left]

lemma renderToolPart_of_obj_type (part : JValue) (s : List Char)
    (hobj : ((jsTypeof part == str "object") && !isNullV part) = true)
    (htype : getProp part (str "type") = vstr s) :
    renderToolPart part =
      (if !jsStartsWith s (str "tool-") then ⟨.ok none, []⟩
       else
        let toolName := jsSlice 5 s
        let output := getProp part (str "output")
        if !hasToolRenderer toolName then
          ⟨.ok none, [str "No renderer found for tool: " ++ toolName]⟩
        else if !(jsTypeof output == str "object") || isNullV output then
          ⟨.ok none, [str "Invalid output for tool: " ++ toolName]⟩
        else
          match callToolRenderer toolName output with
          | .ok rendered =>
              ⟨.ok (some (ToolResultWrapper toolName output rendered)), []⟩
          | .error e => ⟨.error e, []⟩) := by
  rw [Bool.and_eq_true, Bool.not_eq_true'] at hobj
  rw [renderToolPart]
  rw [hobj.1, hobj.2, htype]
  simp

lemma renderToolPart_of_obj (part : JValue)
    (hobj : ((jsTypeof part == str "object") && !isNullV part) = true) :
    renderToolPart part =
      (match getProp part (str "type") with
       | vstr s =>
         if !jsStartsWith s (str "tool-") then ⟨.ok none, []⟩
         else
          let toolName := jsSlice 5 s
          let output := getProp part (str "output")
          if !hasToolRenderer toolName then
            ⟨.ok none, [str "No renderer found for tool: " ++ toolName]⟩
          else if !(jsTypeof output == str "object") || isNullV output then
            ⟨.ok none, [str "Invalid output for tool: " ++ toolName]⟩
          else
            match callToolRenderer toolName output with
            | .ok rendered =>
                ⟨.ok (some (ToolResultWrapper toolName output rendered)), []⟩
            | .error e => ⟨.error e, []⟩
       | _ => ⟨.ok none, []⟩) := by
  rw [Bool.and_eq_true, Bool.not_eq_true'] at hobj
  rw [renderToolPart]
  rw [hobj.1, hobj.2]
  simp

/-- C6: for every value that is not an object, or is an object whose `type`
field is not a string or does not start with `"tool-"`, `renderToolPart`
returns `null` without throwing and without logging; in particular a part
with type `"text"` yields `null`. -/
theorem c6_non_tool_part_returns_null (part : JValue)
    (h : (!(jsTypeof part == str "object") || isNullV part ||
          !isToolTypeVal (getProp part (str "type"))) = true) :
    renderToolPart part = ⟨.ok none, []⟩ := by
  cases part with
  | vundef => rfl
  | vnull => rfl
  | vbool b => rfl
  | vnum n => rfl
  | vstr s => rfl
  | varr elems => rfl
  | vobj fields =>
      have ht : isToolTypeVal (getProp (vobj fields) (str "type")) = false := by
        simp only [show (!(jsTypeof (vobj fields) == str "object")) = false from rfl,
          show isNullV (vobj fields) = false from rfl, Bool.false_or,
          Bool.not_eq_true'] at h
        exact h
      rw [renderToolPart_of_obj _ (by rfl)]
      cases t : getProp (vobj fields) (str "type") with
      | vstr s =>
          rw [t, isToolTypeVal] at ht
          simp [ht]
      | vundef => rfl
      | vnull => rfl
      | vbool b => rfl
      | vnum n => rfl
      | varr elems => rfl
      | vobj fields2 => rfl

/-- Witness for C6: the stream element `{ type: "text", text: "hello" }` is
rejected with `null`. -/
theorem c6_non_tool_part_returns_null_witness :
    renderToolPart
      (vobj [(str "type", vstr (str "text")), (str "text", vstr (str "hello"))]) =
      ⟨.ok none, []⟩ :=
  c6_non_tool_part_returns_null _ (by decide)

/-- C7: for a part whose `type` is `"tool-"` followed by a recognized tool
name, a missing, null, or non-object `output` makes `renderToolPart` return
`null` with a logged warning, without invoking the renderer and without
throwing. -/
theorem c7_malformed_output_returns_null (part : JValue) (name : List Char)
    (hobj : ((jsTypeof part == str "object") && !isNullV part) = true)
    (htype : getProp part (str "type") = vstr (str "tool-" ++ name))
    (hreg : hasToolRenderer name = true)
    (hout : (!(jsTypeof (getProp part (str "output")) == str "object") ||
             isNullV (getProp part (str "output"))) = true) :
    renderToolPart part =
      ⟨.ok none, [str "Invalid output for tool: " ++ name]⟩ := by
  rw [renderToolPart_of_obj_type part _ hobj htype]
  simp [jsStartsWith_toolDash, jsSlice_toolDash, hreg, hout]

/-- Witness for C7: scenario E, `{ type: "tool-get_weather", output: "not an
object" }` degrades to `null` plus a warning. -/
theorem c7_malformed_output_returns_null_witness :
    renderToolPart
      (vobj [(str "type", vstr (str "tool-get_weather")),
             (str "output", vstr (str "not an object"))]) =
      ⟨.ok none, [str "Invalid output for tool: " ++ str "get_weather"]⟩ :=
  c7_malformed_output_returns_null _ (str "get_weather") rfl rfl rfl rfl

/-- C8 as stated is false on the code: `toolName in toolRenderers` also
accepts `Object.prototype`-inherited names that are not keys of the
dispatch table.  `{ type: "tool-toString", output: {} }` is dispatched to
the inherited `Object.prototype.toString` and yields a rendered wrapper
containing `"[object Object]"` — not `null`, with no warning — and
`{ type: "tool-__proto__", output: {} }` throws a `TypeError` because the
looked-up `Object.prototype` is not callable. -/
theorem c8_prototype_name_dispatched :
    renderToolPart
        (vobj [(str "type", vstr (str "tool-toString")),
               (str "output", vobj [])]) =
      ⟨.ok (some (ToolResultWrapper (str "toString") (vobj [])
          (RNode.rtext (str "[object Object]")))), []⟩ ∧
    renderToolPart
        (vobj [(str "type", vstr (str "tool-__proto__")),
               (str "output", vobj [])]) =
      ⟨.error (str "TypeError: toolRenderers[toolName] is not a function"),
       []⟩ :=
  ⟨rfl, rfl⟩

/-- C8 (amended): for a part whose `type` names a tool that is neither a
key of the renderer dispatch table nor an `Object.prototype` property name
(so the JS `in` guard really fails), `renderToolPart` returns `null` with a
logged warning — never throws — for every well-formed (non-null object)
output; a prototype-inherited name instead slips past the guard and invokes
the inherited member. -/
theorem c8_unregistered_tool_not_found (part : JValue) (name : List Char)
    (hobj : ((jsTypeof part == str "object") && !isNullV part) = true)
    (htype : getProp part (str "type") = vstr (str "tool-" ++ name))
    (hreg : hasToolRenderer name = false)
    (houtobj : ((jsTypeof (getProp part (str "output")) == str "object") &&
                !isNullV (getProp part (str "output"))) = true) :
    renderToolPart part =
      ⟨.ok none, [str "No renderer found for tool: " ++ name]⟩ := by
  rw [renderToolPart_of_obj_type part _ hobj htype]
  simp [jsStartsWith_toolDash, jsSlice_toolDash, hreg]

/-- Witness for C8: scenario C, `{ type: "tool-unknown_tool", output: {} }`
is parsed but yields `NotFound` (null plus warning). -/
theorem c8_unregistered_tool_not_found_witness :
    renderToolPart
      (vobj [(str "type", vstr (str "tool-unknown_tool")),
             (str "output", vobj [])]) =
      ⟨.ok none, [str "No renderer found for tool: " ++ str "unknown_tool"]⟩ :=
  c8_unregistered_tool_not_found _ (str "unknown_tool") rfl rfl rfl rfl

/-- C9: for a part whose `type` is `"tool-" + name` and whose `output` is a
non-null object, the extraction strips the prefix to recover exactly `name`
and passes exactly that output value unchanged to the dispatch table
(`hasToolRenderer` / `callToolRenderer`). -/
theorem c9_extracts_name_and_output_unchanged (part : JValue)
    (name : List Char) (output : JValue)
    (hobj : ((jsTypeof part == str "object") && !isNullV part) = true)
    (htype : getProp part (str "type") = vstr (str "tool-" ++ name))
    (hout : getProp part (str "output") = output)
    (houtobj : ((jsTypeof output == str "object") && !isNullV output) = true) :
    renderToolPart part =
      (if hasToolRenderer name then
        match callToolRenderer name output with
        | .ok rendered =>
            ⟨.ok (some (ToolResultWrapper name output rendered)), []⟩
        | .error e => ⟨.error e, []⟩
       else ⟨.ok none, [str "No renderer found for tool: " ++ name]⟩) := by
  have hguard : (!(jsTypeof output == str "object") || isNullV output) = false := by
    rw [Bool.and_eq_true, Bool.not_eq_true'] at houtobj
    simp [houtobj.1, houtobj.2]
  rw [renderToolPart_of_obj_type part _ hobj htype]
  simp only [jsStartsWith_toolDash, jsSlice_toolDash, Bool.not_true,
    Bool.false_eq_true, if_false, hout]
  cases hr : hasToolRenderer name with
  | true => simp [hguard]
  | false => simp

/-- Witness for C9: scenario B, `{ type: "tool-get_weather", output: { city:
"Tokyo", temperature: 18 } }` dispatches `get_weather` with that very
output. -/
theorem c9_extracts_name_and_output_unchanged_witness :
    renderToolPart
      (vobj [(str "type", vstr (str "tool-get_weather")),
             (str "output",
              vobj [(str "city", vstr (str "Tokyo")),
                    (str "temperature", vnum 18)])]) =
      (if hasToolRenderer (str "get_weather") then
        match callToolRenderer (str "get_weather")
            (vobj [(str "city", vstr (str "Tokyo")),
                   (str "temperature", vnum 18)]) with
        | .ok rendered =>
            ⟨.ok (some (ToolResultWrapper (str "get_weather")
                (vobj [(str "city", vstr (str "Tokyo")),
                       (str "temperature", vnum 18)]) rendered)), []⟩
        | .error e => ⟨.error e, []⟩
       else ⟨.ok none, [str "No renderer found for tool: " ++ str "get_weather"]⟩) :=
  c9_extracts_name_and_output_unchanged _ (str "get_weather")
    (vobj [(str "city", vstr (str "Tokyo")), (str "temperature", vnum 18)])
    rfl rfl rfl rfl

/-- C10: `getToolOutput` performs no object check on the payload: for a part
object whose `type` strictly equals `"tool-" + toolName`, it returns the
`output` field exactly when that field is truthy (including non-object
values), and `null` when the field is falsy. -/
theorem c10_getToolOutput_truthiness (fields : List (List Char × JValue))
    (toolName : List Char)
    (htype : strictEqStr (getProp (vobj fields) (str "type"))
      (str "tool-" ++ toolName) = true) :
    getToolOutput (vobj fields) toolName =
      (if truthy (getProp (vobj fields) (str "output")) then
        some (getProp (vobj fields) (str "output"))
       else none) := by
  rw [getToolOutput]
  rw [show (jsTypeof (vobj fields) == str "object") = true from rfl,
    show isNullV (vobj fields) = false from rfl, htype]
  simp

/-- Witness for C10: a non-object truthy output (a non-empty string) is
returned as-is, and a falsy output (`0`) yields `null` even on a valid tool
part. -/
theorem c10_getToolOutput_truthiness_witness :
    getToolOutput
        (vobj [(str "type", vstr (str "tool-get_weather")),
               (str "output", vstr (str "hi"))]) (str "get_weather") =
      some (vstr (str "hi")) ∧
    getToolOutput
        (vobj [(str "type", vstr (str "tool-execute_sql")),
               (str "output", vnum 0)]) (str "execute_sql") = none :=
  ⟨c10_getToolOutput_truthiness _ (str "get_weather") rfl,
   c10_getToolOutput_truthiness _ (str "execute_sql") rfl⟩

/-- C2 (the code violates the claimed invariant): the committed repository
state has a renderer registered for `get_weather` in `toolRenderers`, while
the `ToolOutputTypes` mapping of the committed generated artifact
`src/types/tools.ts` has keys `execute_sql` and `render_chart` only — so the
renderer keys are not a subset of the registry keys, contradicting the
repository's own `satisfies ToolRendererMapType` compile-time check. -/
theorem c2_renderer_key_without_registered_type :
    (toolRenderersKeys.contains (str "get_weather") = true ∧
     toolOutputTypesKeys.contains (str "get_weather") = false) ∧
    ¬ (∀ k ∈ toolRenderersKeys, k ∈ toolOutputTypesKeys) := by
  refine ⟨⟨by decide, by decide⟩, ?_⟩
  intro h
  have := h (str "get_weather") (by decide)
  revert this
  decide

/-- C4: the generation run is all-or-nothing.  A rejected fetch, a non-ok
response, a non-JSON body, a throwing `data.tools` access, or a failing
per-tool loop (in particular a failing `compile`) exits with status 1 and
performs no write to the artifact; a successful run exits 0 after exactly
one write of the complete artifact. -/
theorem c4_all_or_nothing_artifact (compile : Compiler)
    (fetchResult : Except (List Char) HttpResponse) :
    (∀ e, fetchResult = .error e →
      generateTypes compile fetchResult = ⟨1, []⟩) ∧
    (∀ resp, fetchResult = .ok resp → resp.ok = false →
      generateTypes compile fetchResult = ⟨1, []⟩) ∧
    (∀ resp e, fetchResult = .ok resp → resp.ok = true → resp.body = .error e →
      generateTypes compile fetchResult = ⟨1, []⟩) ∧
    (∀ resp data e, fetchResult = .ok resp → resp.ok = true →
      resp.body = .ok data → jsGetE data (str "tools") = .error e →
      generateTypes compile fetchResult = ⟨1, []⟩) ∧
    (∀ resp data toolsVal, fetchResult = .ok resp → resp.ok = true →
      resp.body = .ok data → jsGetE data (str "tools") = .ok toolsVal →
      (∀ e,
        genLoop compile
            (jsEntriesOf (if truthy toolsVal then toolsVal else vobj []))
            headerComment [] = .error e →
        generateTypes compile fetchResult = ⟨1, []⟩) ∧
      (∀ defs reg,
        genLoop compile
            (jsEntriesOf (if truthy toolsVal then toolsVal else vobj []))
            headerComment [] = .ok (defs, reg) →
        generateTypes compile fetchResult = ⟨0, [emitArtifact defs reg]⟩)) := by
  refine ⟨?_, ?_, ?_, ?_, ?_⟩
  · intro e he
    rw [generateTypes.eq_def, he]
  · intro resp hr hok
    rw [generateTypes.eq_def, hr]
    simp [hok]
  · intro resp e hr hok hb
    rw [generateTypes.eq_def, hr]
    simp [hok, hb]
  · intro resp data e hr hok hb ht
    rw [generateTypes.eq_def, hr]
    simp [hok, hb, ht]
  · intro resp data toolsVal hr hok hb ht
    constructor
    · intro e hloop
      rw [generateTypes.eq_def, hr]
      simp [hok, hb, ht, hloop]
    · intro defs reg hloop
      rw [generateTypes.eq_def, hr]
      simp [hok, hb, ht, hloop]

/-- Witness for C4: a rejected fetch (connection refused) exits 1 with no
artifact write. -/
theorem c4_all_or_nothing_artifact_witness :
    generateTypes (fun _ name => .ok (str "export interface " ++ name))
      (.error (str "ECONNREFUSED")) = ⟨1, []⟩ :=
  (c4_all_or_nothing_artifact _ _).1 (str "ECONNREFUSED") rfl

/-- The tool names that a successful generation run registers, read off the
response entries in iteration order: those whose `output` value is truthy
and whose compiled TypeScript contains an `export interface` declaration. -/
def keysFrom (compile : Compiler) (entries : List (List Char × JValue)) :
    List (List Char) :=
  entries.filterMap fun p =>
    match jsGetE p.2 (str "output") with
    | .error _ => none
    | .ok outputVal =>
      if truthy outputVal then
        match compile outputVal p.1 with
        | .error _ => none
        | .ok tsCode =>
            if (findInterfaceName tsCode).isSome then some p.1 else none
      else none

lemma genLoop_keys (compile : Compiler) :
    ∀ (entries : List (List Char × JValue)) (defs : List Char)
      (reg : List (List Char × List Char)) (defs' : List Char)
      (reg' : List (List Char × List Char)),
      genLoop compile entries defs reg = .ok (defs', reg') →
      reg'.map Prod.fst = reg.map Prod.fst ++ keysFrom compile entries := by
  intro entries
  induction entries with
  | nil =>
      intro defs reg defs' reg' h
      rw [genLoop] at h
      injection h with h'
      injection h' with h1 h2
      subst h2
      simp [keysFrom]
  | cons p rest ih =>
      obtain ⟨name, config⟩ := p
      intro defs reg defs' reg' h
      rw [genLoop] at h
      cases ho : jsGetE config (str "output") with
      | error e => rw [ho] at h; exact absurd h (by simp [Bind.bind, Except.bind])
      | ok outputVal =>
          rw [ho] at h
          simp only [Bind.bind, Except.bind] at h
          by_cases ht : truthy outputVal
          · rw [if_pos ht] at h
            cases hc : compile outputVal name with
            | error e =>
                rw [hc] at h
                exact absurd h (by simp [Bind.bind, Except.bind])
            | ok tsCode =>
                rw [hc] at h
                simp only [Bind.bind, Except.bind] at h
                cases hf : findInterfaceName tsCode with
                | some iface =>
                    rw [hf] at h
                    have hrec := ih _ _ _ _ h
                    rw [hrec]
                    simp [keysFrom, ho, ht, hc, hf]
                | none =>
                    rw [hf] at h
                    have hrec := ih _ _ _ _ h
                    rw [hrec]
                    simp [keysFrom, ho, ht, hc, hf]
          · rw [if_neg ht] at h
            have hrec := ih _ _ _ _ h
            rw [hrec]
            simp [keysFrom, ho, ht]

/-- C1 as stated is false on the code: a tool whose `tools` entry has an
`output` key can still be absent from the registry.  Run 1: `output: false`
(a valid boolean JSON Schema, but falsy) is skipped by `if (toolData.output)`.
Run 2: a truthy string schema compiled to a type alias has no
`export interface` match, so no registry entry is recorded. -/
theorem c1_output_key_not_registered :
    registryOf
        (fun _ name => .ok (str "export interface I" ++ name ++ str " \x7b\x7d"))
        (vobj [(str "t", vobj [(str "output", vbool false)])]) = .ok [] ∧
    registryOf (fun _ _ => .ok (str "export type Alias = string;"))
        (vobj [(str "u",
          vobj [(str "output", vobj [(str "type", vstr (str "string"))])])]) =
      .ok [] :=
  ⟨rfl, rfl⟩

lemma registryOf_keys (compile : Compiler) (tools : JValue)
    (res : List (List Char × List Char))
    (h : registryOf compile tools = .ok res) :
    res.map Prod.fst = keysFrom compile (jsEntriesOf tools) := by
  rw [registryOf] at h
  cases hg : genLoop compile (jsEntriesOf tools) headerComment [] with
  | error e => rw [hg] at h; exact absurd h (by simp [Except.map])
  | ok pr =>
      obtain ⟨defs', reg'⟩ := pr
      rw [hg] at h
      simp only [Except.map] at h
      injection h with h'
      subst h'
      simpa using genLoop_keys compile _ _ _ _ _ hg

/-- C1 (amended): on every successful generation run, the registry keys are
exactly — in iteration order — the tool names whose `output` value is truthy
and whose compiled TypeScript declares an `export interface`; tools with a
missing or falsy `output` (including a present `output` key holding `null`
or `false`) and tools compiled to a non-interface are omitted, and no other
keys appear. -/
theorem c1_registry_keys_characterization (compile : Compiler) (tools : JValue)
    (res : List (List Char × List Char))
    (h : registryOf compile tools = .ok res) :
    res.map Prod.fst = keysFrom compile (jsEntriesOf tools) :=
  registryOf_keys compile tools res h

/-- Witness for C1: one tool `w` with a truthy object schema compiled to an
interface `Iw` yields the registry key list `[w]`. -/
theorem c1_registry_keys_characterization_witness :
    ([(str "w", str "Iw")] : List (List Char × List Char)).map Prod.fst =
      keysFrom
        (fun _ name => .ok (str "export interface I" ++ name ++ str " \x7b\x7d"))
        (jsEntriesOf (vobj [(str "w", vobj [(str "output", vobj [])])])) :=
  c1_registry_keys_characterization _ _ _ rfl

lemma jsEntries_of_no_index (fields : List (List Char × α))
    (h : ∀ p ∈ fields, isArrayIndexKey p.1 = false) :
    jsEntries fields = fields := by
  rw [jsEntries]
  have h1 : (fields.filter fun p => isArrayIndexKey p.1) = [] := by
    rw [List.filter_eq_nil_iff]
    intro p hp
    simp [h p hp]
  have h2 : (fields.filter fun p => !isArrayIndexKey p.1) = fields := by
    rw [List.filter_eq_self]
    intro p hp
    simp [h p hp]
  rw [h1, h2, sortIndexEntries, List.nil_append]

lemma keysFrom_subset (compile : Compiler)
    (entries : List (List Char × JValue)) :
    ∀ k ∈ keysFrom compile entries, k ∈ entries.map Prod.fst := by
  intro k hk
  rw [keysFrom, List.mem_filterMap] at hk
  obtain ⟨p, hp, hf⟩ := hk
  cases ho : jsGetE p.2 (str "output") with
  | error e => simp [ho] at hf
  | ok ov =>
      by_cases ht : truthy ov
      · cases hc : compile ov p.1 with
        | error e => simp [ho, ht, hc] at hf
        | ok ts =>
            by_cases hi : (findInterfaceName ts).isSome
            · simp only [ho, ht, hc, hi, if_pos, if_true] at hf
              injection hf with hf'
              subst hf'
              exact List.mem_map_of_mem Prod.fst hp
            · simp [ho, ht, hc, hi] at hf
      · simp [ho, ht] at hf

/-- C3 as stated is false on the code: tool names are not always iterated in
the declaration order of the source response.  With tools declared in the
order `b`, `1`, `Object.entries` lists the array-index key `"1"` first, so
the registry (and hence the emitted mapping) orders `1` before `b`. -/
theorem c3_numeric_tool_name_reordered :
    registryOf
        (fun _ name => .ok (str "export interface I" ++ name ++ str " \x7b\x7d"))
        (vobj [(str "b", vobj [(str "output", vobj [])]),
               (str "1", vobj [(str "output", vobj [])])]) =
      .ok [(str "1", str "I1"), (str "b", str "Ib")] ∧
    [str "1", str "b"] ≠ [str "b", str "1"] :=
  ⟨rfl, by decide⟩

/-- C3 (amended): the run is a pure function of the fetched response and the
compiler, so two runs against the same response are byte-identical; and tool
names are iterated in JS object key order — array-index-like names first in
ascending numeric order, then the rest in insertion order — which coincides
with the declaration order of the source response whenever no tool name is
an array-index string (then the registry lists exactly the
interface-compiled truthy-output tools in declaration order, and the
emitted mapping preserves that order). -/
theorem c3_determinism_and_declaration_order :
    (∀ (compile : Compiler) (f : Except (List Char) HttpResponse),
      generateTypes compile f = generateTypes compile f) ∧
    (∀ (compile : Compiler) (fields : List (List Char × JValue))
        (res : List (List Char × List Char)),
      (∀ p ∈ fields, isArrayIndexKey p.1 = false) →
      registryOf compile (vobj fields) = .ok res →
      res.map Prod.fst = keysFrom compile fields ∧ jsEntries res = res) := by
  constructor
  · intro compile f
    rfl
  · intro compile fields res hidx h
    have hent : jsEntriesOf (vobj fields) = fields := by
      rw [jsEntriesOf, jsEntries_of_no_index fields hidx]
    have hkeys : res.map Prod.fst = keysFrom compile fields := by
      have hchar := registryOf_keys compile (vobj fields) res h
      rw [hent] at hchar
      exact hchar
    refine ⟨hkeys, ?_⟩
    apply jsEntries_of_no_index
    intro q hq
    have hq1 : q.1 ∈ keysFrom compile fields := by
      rw [← hkeys]
      exact List.mem_map_of_mem Prod.fst hq
    have hq2 := keysFrom_subset compile fields q.1 hq1
    rw [List.mem_map] at hq2
    obtain ⟨p, hp, hpe⟩ := hq2
    rw [← hpe]
    exact hidx p hp

/-- Witness for C3: a single non-numeric tool name `b` keeps declaration
order and the registry is order-stable under `Object.entries`. -/
theorem c3_determinism_and_declaration_order_witness :
    ([(str "b", str "Ib")] : List (List Char × List Char)).map Prod.fst =
      keysFrom
        (fun _ name => .ok (str "export interface I" ++ name ++ str " \x7b\x7d"))
        [(str "b", vobj [(str "output", vobj [])])] ∧
    jsEntries ([(str "b", str "Ib")] : List (List Char × List Char)) =
      [(str "b", str "Ib")] :=
  c3_determinism_and_declaration_order.2 _
    [(str "b", vobj [(str "output", vobj [])])] [(str "b", str "Ib")]
    (by decide) rfl

lemma bindE_ok {α β : Type} (v : α) (f : α → Except (List Char) β) :
    (Except.ok v >>= f) = f v := rfl

lemma bindE_error {α β : Type} (e : List Char) (f : α → Except (List Char) β) :
    ((Except.error e : Except (List Char) α) >>= f) = .error e := rfl

lemma pureE {α : Type} (v : α) : (pure v : Except (List Char) α) = .ok v := rfl

lemma mapIdxE_ok_of {α : Type} (f : JValue → Nat → Except (List Char) α)
    (xs : List JValue) (h : ∀ x ∈ xs, ∀ i, ∃ y, f x i = .ok y) :
    ∀ i, ∃ ys, mapIdxE f xs i = .ok ys := by
  induction xs with
  | nil => intro i; exact ⟨[], rfl⟩
  | cons x rest ih =>
      intro i
      obtain ⟨y, hy⟩ := h x (by simp) i
      obtain ⟨ys, hys⟩ := ih (fun z hz j => h z (by simp [hz]) j) (i + 1)
      exact ⟨y :: ys, by rw [mapIdxE, hy, bindE_ok, hys, bindE_ok]⟩

lemma jsMapE_ok_of {α : Type} (xs : List JValue)
    (f : JValue → Nat → Except (List Char) α)
    (h : ∀ x ∈ xs, ∀ i, ∃ y, f x i = .ok y) :
    ∃ ys, jsMapE (varr xs) f = .ok ys :=
  mapIdxE_ok_of f xs h 0

lemma sqlShape_success (s : SQLShape) :
    jsGetE s.toJValue (str "success") = .ok (vbool s.success) := rfl

lemma sqlShape_id (s : SQLShape) :
    jsGetE s.toJValue (str "id") = .ok (vstr s.id) := rfl

lemma sqlShape_query (s : SQLShape) :
    jsGetE s.toJValue (str "query") = .ok (vstr s.query) := rfl

lemma sqlShape_rows (s : SQLShape) :
    jsGetE s.toJValue (str "rows") = .ok (varr (s.rows.map vobj)) := rfl

lemma sqlShape_row_count (s : SQLShape) :
    jsGetE s.toJValue (str "row_count") = .ok (vnum s.row_count) := rfl

lemma sqlShape_error (s : SQLShape) :
    jsGetE s.toJValue (str "error") =
      .ok (match s.error with
           | none => vundef
           | some none => vnull
           | some (some e) => vstr e) := by
  obtain ⟨i, su, q, r, rc, er, cn⟩ := s
  cases er with
  | none => cases cn with
    | none => rfl
    | some cols => rfl
  | some o => cases o with
    | none => rfl
    | some e => rfl

lemma sqlShape_column_names (s : SQLShape) :
    jsGetE s.toJValue (str "column_names") =
      .ok (match s.column_names with
           | none => vundef
           | some cols => varr (cols.map vstr)) := by
  obtain ⟨i, su, q, r, rc, er, cn⟩ := s
  cases er with
  | none => cases cn with
    | none => rfl
    | some cols => rfl
  | some o => cases o with
    | none => cases cn with
      | none => rfl
      | some cols => rfl
    | some e => cases cn with
      | none => rfl
      | some cols => rfl

lemma throws_eq_false_of_ok {m : Except (List Char) RNode}
    (h : ∃ r, m = .ok r) : throws m = false := by
  obtain ⟨r, hr⟩ := h
  rw [hr]
  rfl

lemma okE_bind_at {α β : Type} {m : Except (List Char) α}
    {f : α → Except (List Char) β} (v : α) (hm : m = .ok v)
    (hf : ∃ y, f v = .ok y) : ∃ y, (m >>= f) = .ok y := by
  obtain ⟨y, hy⟩ := hf
  exact ⟨y, by rw [hm, bindE_ok, hy]⟩

lemma okE_bind' {α β : Type} {m : Except (List Char) α}
    {f : α → Except (List Char) β} (hm : ∃ v, m = .ok v)
    (hf : ∀ v, ∃ y, f v = .ok y) : ∃ y, (m >>= f) = .ok y := by
  obtain ⟨v, hv⟩ := hm
  obtain ⟨y, hy⟩ := hf v
  exact ⟨y, by rw [hv, bindE_ok, hy]⟩

/-- Evaluating `SQLQueryResult` on inputs of the declared `SQLQueryResult` interface
shape throws exactly when the result claims success with a nonzero row
count but carries no `column_names` array (the `data.column_names.map` call
on `undefined`); in every other shaped case — in particular every falsy
`success` — it renders a fallback panel without throwing. -/
lemma sql_throws_characterization (s : SQLShape) :
    throws (SQLQueryResult s.toJValue) =
      (s.success && !(s.row_count == 0) && s.column_names.isNone) := by
  simp only [SQLQueryResult, sqlShape_success, bindE_ok]
  cases hs : s.success with
  | false =>
      simp only [truthy, Bool.not_false, if_true, sqlShape_query, sqlShape_error,
        bindE_ok, renderChild, pureE]
      cases s.error with
      | none => rfl
      | some o => cases o with
        | none => rfl
        | some e => rfl
  | true =>
      simp only [truthy, Bool.not_true, if_false, sqlShape_row_count, sqlShape_id,
        sqlShape_query, bindE_ok, renderChild, Bool.false_eq_true, strictEqNum]
      cases hrc : s.row_count == 0 with
      | true =>
          simp only [hrc, if_true, Bool.true_and, Bool.not_true, Bool.false_and]
          rfl
      | false =>
          simp only [hrc, Bool.false_eq_true, if_false, Bool.true_and,
            Bool.not_false]
          cases hcn : s.column_names with
          | none =>
              simp only [sqlShape_column_names, hcn, bindE_ok, sqlShape_rows,
                jsMapE, bindE_error, Option.isNone_none]
              rfl
          | some cols =>
              simp only [Option.isNone_some]
              apply throws_eq_false_of_ok
              apply okE_bind_at (varr (cols.map vstr))
                (by rw [sqlShape_column_names, hcn])
              apply okE_bind_at (varr (s.rows.map vobj)) (sqlShape_rows s)
              refine okE_bind' (jsMapE_ok_of _ _ ?_) fun headCells => ?_
              · intro x hx i
                rw [List.mem_map] at hx
                obtain ⟨c, hc, rfl⟩ := hx
                exact ⟨_, rfl⟩
              refine okE_bind' (jsMapE_ok_of _ _ ?_) fun bodyRows => ?_
              · intro x hx i
                rw [List.mem_map] at hx
                obtain ⟨r, hr, rfl⟩ := hx
                refine okE_bind' (jsMapE_ok_of _ _ ?_) fun cells => ⟨_, rfl⟩
                intro y hy j
                rw [List.mem_map] at hy
                obtain ⟨c, hc, rfl⟩ := hy
                exact ⟨_, rfl⟩
              exact ⟨_, rfl⟩

lemma configShape_chart_type (c : ChartConfigShape) :
    jsGetE c.toJValue (str "chart_type") = .ok (vstr c.chart_type) := rfl

lemma configShape_x_key (c : ChartConfigShape) :
    jsGetE c.toJValue (str "x_key") = .ok (vstr c.x_key) := rfl

lemma configShape_y_keys (c : ChartConfigShape) :
    jsGetE c.toJValue (str "y_keys") = .ok (varr (c.y_keys.map vstr)) := rfl

lemma configShape_title (c : ChartConfigShape) :
    jsGetE c.toJValue (str "title") =
      .ok (match c.title with
           | none => vundef
           | some none => vnull
           | some (some t) => vstr t) := by
  obtain ⟨ct, xk, yk, t, xl, yl⟩ := c
  rcases t with _ | ⟨_ | t⟩ <;> rcases xl with _ | ⟨_ | xl⟩ <;>
    rcases yl with _ | ⟨_ | yl⟩ <;> rfl

lemma chartShape_success (s : ChartShape) :
    jsGetE s.toJValue (str "success") = .ok (vbool s.success) := rfl

lemma chartShape_rows (s : ChartShape) :
    jsGetE s.toJValue (str "rows") = .ok (varr (s.rows.map vobj)) := rfl

lemma chartShape_config (s : ChartShape) :
    jsGetE s.toJValue (str "config") = .ok s.config.toJValue := rfl

lemma chartShape_error (s : ChartShape) :
    jsGetE s.toJValue (str "error") =
      .ok (match s.error with
           | none => vundef
           | some none => vnull
           | some (some e) => vstr e) := by
  obtain ⟨su, ci, ct, r, cf, er⟩ := s
  rcases er with _ | ⟨_ | e⟩ <;> rfl

lemma chartShape_explanation (s : ChartShape) :
    jsGetE s.toJValue (str "explanation") = .ok vundef := by
  obtain ⟨su, ci, ct, r, cf, er⟩ := s
  rcases er with _ | ⟨_ | e⟩ <;> rfl

lemma getProp_varr_length (xs : List JValue) :
    getProp (varr xs) (str "length") = vnum xs.length := rfl

lemma okE_ite {α : Type} {c : Prop} [Decidable c]
    {m1 m2 : Except (List Char) α} (h1 : ∃ y, m1 = .ok y)
    (h2 : ∃ y, m2 = .ok y) : ∃ y, (if c then m1 else m2) = .ok y := by
  by_cases hc : c
  · rw [if_pos hc]; exact h1
  · rw [if_neg hc]; exact h2

lemma renderChart_ok (t xk : List Char) (rows : List (List (List Char × JValue)))
    (yks : List (List Char)) :
    ∃ ch, renderChart (vstr t) (varr (rows.map vobj)) (vstr xk)
        (varr (yks.map vstr)) = .ok ch := by
  rw [renderChart]
  rw [show toLowerCaseE (vstr t) = Except.ok (asciiToLower t) from rfl, bindE_ok]
  refine okE_ite ?_ (okE_ite ?_ (okE_ite ?_ (okE_ite ?_ (okE_ite ?_ (okE_ite ?_
    (okE_ite ?_ (okE_ite ?_ (okE_ite ?_ (okE_ite ?_ (okE_ite ?_ ?_))))))))))
  · exact okE_bind' (jsMapE_ok_of _ _ fun x hx i => ⟨_, rfl⟩) fun series => ⟨_, rfl⟩
  · exact okE_bind' (jsMapE_ok_of _ _ fun x hx i => ⟨_, rfl⟩) fun series => ⟨_, rfl⟩
  · exact okE_bind' (jsMapE_ok_of _ _ fun x hx i => ⟨_, rfl⟩) fun series => ⟨_, rfl⟩
  · exact okE_bind' (jsMapE_ok_of _ _ fun x hx i => ⟨_, rfl⟩) fun series => ⟨_, rfl⟩
  · exact okE_bind' (jsMapE_ok_of _ _ fun x hx i => okE_ite ⟨_, rfl⟩ ⟨_, rfl⟩)
      fun series => ⟨_, rfl⟩
  · exact okE_bind' (jsMapE_ok_of _ _ fun x hx i => ⟨_, rfl⟩) fun cells => ⟨_, rfl⟩
  · exact ⟨_, rfl⟩
  · exact ⟨_, rfl⟩
  · exact okE_bind' (jsMapE_ok_of _ _ fun x hx i => ⟨_, rfl⟩) fun cells => ⟨_, rfl⟩
  · exact ⟨_, rfl⟩
  · refine okE_bind' ⟨_, rfl⟩ fun len => ?_
    refine okE_bind' (jsMapE_ok_of _ _ ?_) fun nodes => ?_
    · intro x hx i
      rw [List.mem_map] at hx
      obtain ⟨r, hr, rfl⟩ := hx
      exact ⟨_, rfl⟩
    refine okE_bind' (jsMapE_ok_of _ _ ?_) fun links => ⟨_, rfl⟩
    intro x hx i
    rw [List.mem_map] at hx
    obtain ⟨r, hr, rfl⟩ := hx
    exact ⟨_, rfl⟩
  · exact ⟨_, rfl⟩

lemma renderChild_ok_of_strs (c : Prop) [Decidable c] (a b : List Char) :
    ∃ v, renderChild (if c then vstr a else vstr b) = .ok v := by
  by_cases hc : c
  · rw [if_pos hc]; exact ⟨_, rfl⟩
  · rw [if_neg hc]; exact ⟨_, rfl⟩

lemma chart_never_throws (s : ChartShape) :
    throws (ChartResult s.toJValue) = false := by
  simp only [ChartResult, chartShape_success, bindE_ok]
  cases hs : s.success with
  | false =>
      simp only [truthy, Bool.not_false, if_true, chartShape_error, bindE_ok]
      rcases s.error with _ | ⟨_ | e⟩ <;> rfl
  | true =>
      simp only [truthy, Bool.not_true, if_false, Bool.false_eq_true,
        chartShape_rows, chartShape_config, bindE_ok, getProp_varr_length,
        strictEqNum, Bool.false_or]
      cases hr : s.rows with
      | nil => rfl
      | cons r rs =>
          have hlen : (((List.map vobj (r :: rs)).length : Int) == 0) = false := by
            simp
            omega
          simp only [hlen, Bool.false_eq_true, if_false]
          apply throws_eq_false_of_ok
          apply okE_bind_at _ (configShape_title s.config)
          apply okE_bind_at (vstr s.config.chart_type)
            (configShape_chart_type s.config)
          apply okE_bind_at (vstr s.config.x_key) (configShape_x_key s.config)
          apply okE_bind_at (varr (s.config.y_keys.map vstr))
            (configShape_y_keys s.config)
          refine okE_bind' (renderChart_ok _ _ _ _) fun chart => ?_
          apply okE_bind_at vundef (chartShape_explanation s)
          refine okE_bind' ⟨_, rfl⟩ fun explBlock => ?_
          rcases ht : s.config.title with _ | ⟨_ | ttl⟩
          · exact okE_bind' ⟨_, rfl⟩ fun titleCh => ⟨_, rfl⟩
          · exact okE_bind' ⟨_, rfl⟩ fun titleCh => ⟨_, rfl⟩
          · exact okE_bind' (renderChild_ok_of_strs _ _ _) fun titleCh => ⟨_, rfl⟩

/-- C5 as stated is false on the code: the shaped input
`{id: "1", success: true, query: "SELECT 1", rows: [{}], row_count: 1}`
(required fields present and well-typed, optional `error` and
`column_names` absent) violates the application invariant — `success` is
true while `column_names` is absent — and `SQLQueryResult` throws on
`data.column_names.map` instead of producing a fallback rendering. -/
theorem c5_sql_success_without_columns_throws :
    throws (SQLQueryResult
      (SQLShape.toJValue
        ⟨str "1", true, str "SELECT 1", [[]], 1, none, none⟩)) = true := rfl

/-- C5 (amended): on every input of the declared shape, `ChartResult` never
throws (all its invariant violations, including a falsy `success` with an
absent `error`, fall back to an error or empty panel), and `SQLQueryResult`
falls back without throwing except in exactly one case: `success` truthy,
`row_count` not 0, and `column_names` absent, where it throws. -/
theorem c5_renderer_fallbacks :
    (∀ cs : ChartShape, throws (ChartResult cs.toJValue) = false) ∧
    (∀ ss : SQLShape,
      throws (SQLQueryResult ss.toJValue) =
        (ss.success && !(ss.row_count == 0) && ss.column_names.isNone)) :=
  ⟨chart_never_throws, sql_throws_characterization⟩
